import Mathlib

/-!
Shallow embedding of the authentication core of the Recipe Hub backend
(`src/recipe_backend/src/`), together with proofs about it.

Conventions of the embedding:
* Machine time is modelled as `Int` epoch seconds.  `datetime.now(tz=utc)`
  becomes an explicit `now : Int` parameter; `timedelta(minutes=m)` becomes
  `m * 60` seconds.
* The `python-jose` JWT library is modelled symbolically: a token is either a
  signed payload tagged with the signing key and the algorithm, or a malformed
  string.  `jwt.decode(token, key, algorithms=[alg])` succeeds exactly when the
  token is well formed, was signed with `key` under an algorithm in the allowed
  list, and its `exp` claim is not in the past (jose rejects when `exp < now`,
  with the default leeway of 0).
* The `passlib` bcrypt context is modelled symbolically and idealised as
  collision-free: a hash records the hashed password and the salt.  Per
  passlib's documented behaviour, `CryptContext.verify` raises
  `UnknownHashError` (a `ValueError`) when the hash string cannot be
  identified as any configured scheme, and otherwise returns a boolean; the
  model returns `Except` accordingly.
* Python truthiness on optional string claims (`if not user_id`) is modelled
  explicitly: `None` and the empty string are falsy.
* `str.strip` / `str.lower` are embedded character-by-character on the ASCII
  fragment (the intended email domain): the default strip set is the six ASCII
  whitespace code points, and lowering moves `A`–`Z` down by 32.
-/

namespace RecipeHub

/-- JWT claims payload as constructed in `src/core/auth.py`
(`create_access_token` / `create_refresh_token`): claims `sub`, `email`,
`type`, `exp`, `iat`.  `sub`, `email` and `type` are optional so that
`payload.get(...)` returning `None` on foreign tokens is representable. -/
structure Payload where
  sub : Option String
  email : Option String
  type : Option String
  exp : Int
  iat : Int
deriving Repr, DecidableEq

/-- Symbolic model of a serialized JWT: either a payload signed with a key
under an algorithm, or a string that is not a well-formed token at all. -/
inductive Token where
  | signed (payload : Payload) (key : String) (alg : String)
  | malformed (raw : String)
deriving Repr, DecidableEq

/-- The `jose.JWTError` failures relevant here (`ExpiredSignatureError` is a
subclass of `JWTError` in jose, so all three are caught by
`except JWTError`). -/
inductive JWTError where
  | malformedToken
  | signatureMismatch
  | expiredSignature
deriving Repr, DecidableEq

/-- Model of `jose.jwt.decode(token, key, algorithms=algs)` at clock `now`:
verifies the signature (key and algorithm), then validates the `exp` claim;
jose rejects as expired exactly when `exp < now` (default leeway 0). -/
def jwtDecode (token : Token) (key : String) (algs : List String) (now : Int) :
    Except JWTError Payload :=
  match token with
  | .malformed _ => .error .malformedToken
  | .signed p k a =>
    if k = key ∧ a ∈ algs then
      if p.exp < now then .error .expiredSignature else .ok p
    else .error .signatureMismatch

/-- The subset of `Settings` (`src/core/config.py`) the auth core reads.
Defaults as declared there: `ALGORITHM` defaults to HS256,
`ACCESS_TOKEN_EXPIRE_MINUTES` to 30, `REFRESH_TOKEN_EXPIRE_MINUTES` to
`60 * 24 * 7 = 10080`. -/
structure Settings where
  database_url : String
  jwt_secret_key : String
  jwt_refresh_secret_key : String
  algorithm : String := "HS256"
  access_token_expire_minutes : Int := 30
  refresh_token_expire_minutes : Int := 60 * 24 * 7
deriving Repr, DecidableEq

/-- `create_access_token` (`src/core/auth.py`): payload with
`type = "access"`, `exp = now + expires_minutes` (as absolute seconds),
signed with `settings.jwt_secret_key` under `settings.algorithm`. -/
def create_access_token (s : Settings) (now : Int) (subject email : String)
    (expires_minutes : Int) : Token :=
  .signed
    { sub := some subject
      email := some email
      type := some "access"
      exp := now + expires_minutes * 60
      iat := now }
    s.jwt_secret_key s.algorithm

/-- `create_refresh_token` (`src/core/auth.py`): as the access issuer but with
`type = "refresh"` and signed with `settings.jwt_refresh_secret_key`. -/
def create_refresh_token (s : Settings) (now : Int) (subject email : String)
    (expires_minutes : Int) : Token :=
  .signed
    { sub := some subject
      email := some email
      type := some "refresh"
      exp := now + expires_minutes * 60
      iat := now }
    s.jwt_refresh_secret_key s.algorithm

/-- `decode_access_token` (`src/core/auth.py`). -/
def decode_access_token (s : Settings) (now : Int) (token : Token) :
    Except JWTError Payload :=
  jwtDecode token s.jwt_secret_key [s.algorithm] now

/-- `decode_refresh_token` (`src/core/auth.py`). -/
def decode_refresh_token (s : Settings) (now : Int) (token : Token) :
    Except JWTError Payload :=
  jwtDecode token s.jwt_refresh_secret_key [s.algorithm] now

/-- Embedding of Python `str.strip()`'s default whitespace set on the ASCII
fragment: space (32), tab (9), newline (10), carriage return (13), vertical
tab (11) and form feed (12). -/
def isPySpace (c : Char) : Bool :=
  decide (c.toNat = 32 ∨ c.toNat = 9 ∨ c.toNat = 10 ∨ c.toNat = 13 ∨
    c.toNat = 11 ∨ c.toNat = 12)

/-- Embedding of Python `str.lower()` on the ASCII fragment: code points 65–90
(`A`–`Z`) move down by 32; everything else is unchanged. -/
def pyLowerChar (c : Char) : Char :=
  if 65 ≤ c.toNat ∧ c.toNat ≤ 90 then Char.ofNat (c.toNat + 32) else c

/-- Embedding of Python `str.strip()`: drop the whitespace prefix, then the
whitespace suffix. -/
def pyStrip (l : List Char) : List Char :=
  (l.dropWhile isPySpace).rdropWhile isPySpace

/-- `_normalize_email` / `normalize_email` (`src/core/auth.py`):
`email.strip().lower()`. -/
def normalize_email (email : String) : String :=
  ⟨(pyStrip email.data).map pyLowerChar⟩

/-- Concrete settings used by witnesses. -/
def sampleSettings : Settings :=
  { database_url := "postgresql://localhost/recipes"
    jwt_secret_key := "access-key"
    jwt_refresh_secret_key := "refresh-key" }

instance exceptDecEq {ε α : Type} [DecidableEq ε] [DecidableEq α] :
    DecidableEq (Except ε α) := fun a b =>
  match a, b with
  | .ok x, .ok y => decidable_of_iff (x = y) (by simp)
  | .error x, .error y => decidable_of_iff (x = y) (by simp)
  | .ok _, .error _ => isFalse (by simp)
  | .error _, .ok _ => isFalse (by simp)

/-- Symbolic model of a password hash string.  `bcrypt` hashes are
self-describing (scheme, cost, salt and digest encoded together); the model
records the hashed password and the salt, idealising bcrypt as collision-free
(the spec's "with overwhelming probability").  Any other string is a hash that
passlib cannot identify as a configured scheme. -/
inductive Hash where
  | bcrypt (password : String) (salt : Nat)
  | malformed (raw : String)
deriving Repr, DecidableEq

/-- The passlib failure relevant here: `passlib.exc.UnknownHashError`
(a `ValueError`), raised by `CryptContext.verify` when the hash string cannot
be identified as any configured scheme. -/
inductive PasslibError where
  | unknownHash
deriving Repr, DecidableEq

/-- Model of `CryptContext(schemes=["bcrypt"]).verify(plain, hash)`: on a
recognisable bcrypt hash it returns whether the password matches (idealised
collision-free comparison); on an unidentifiable hash string it raises
`UnknownHashError` rather than returning `False` (documented passlib
behaviour). -/
def pwd_context_verify (plain : String) (h : Hash) : Except PasslibError Bool :=
  match h with
  | .bcrypt p _ => .ok (plain = p)
  | .malformed _ => .error .unknownHash

/-- `verify_password` (`src/core/auth.py`): delegates to
`pwd_context.verify` with no exception handling, so an `UnknownHashError`
propagates to the caller. -/
def verify_password (plain_password : String) (hashed_password : Hash) :
    Except PasslibError Bool :=
  pwd_context_verify plain_password hashed_password

/-- `hash_password` (`src/core/auth.py`): `pwd_context.hash(password)`.  The
salt freshly drawn by passlib at each call is an explicit parameter. -/
def hash_password (password : String) (salt : Nat) : Hash :=
  .bcrypt password salt

/-- Modelled from the spec: `src/domain/users/models.py` (the `User` ORM
model) is imported throughout `src/` but absent from the snapshot.  Fields
follow spec §3 and every use of `User` in `src/api/auth.py` and
`src/core/auth.py`: string `id` (UUID), unique normalized `email`, optional
`username`, opaque `hashed_password`, boolean `is_active`, and informational
timestamps. -/
structure User where
  id : String
  email : String
  username : Option String
  hashed_password : Hash
  is_active : Bool
  created_at : Int
  updated_at : Int
deriving Repr, DecidableEq

/-- SQLAlchemy's `Result.scalar_one_or_none()`: none for an empty result,
the row for a singleton, and `MultipleResultsFound` (an uncaught exception in
this code base) when the query matched more than one row. -/
inductive OrmError where
  | multipleResultsFound
deriving Repr, DecidableEq

def scalar_one_or_none (rows : List User) : Except OrmError (Option User) :=
  match rows with
  | [] => .ok none
  | [u] => .ok (some u)
  | _ :: _ :: _ => .error .multipleResultsFound

/-- `select(User).where(User.email == email)` over the users table, modelled
as a list in insertion order. -/
def selectByEmail (db : List User) (email : String) : List User :=
  db.filter (fun u => u.email = email)

/-- `select(User).where(User.id == user_id)`. -/
def selectById (db : List User) (user_id : String) : List User :=
  db.filter (fun u => u.id = user_id)

/-- Python truthiness of an optional string claim (`if not user_id`):
`None` and the empty string are falsy. -/
def falsyStr : Option String → Bool
  | none => true
  | some s => s = ""

/-- How an endpoint call terminates: an `HTTPException(status, detail)`
raised by the handler, or an exception from a collaborator (ORM, passlib)
that the handler does not catch and that surfaces as a server error. -/
inductive AppError where
  | http (status : Nat) (detail : String)
  | orm (e : OrmError)
  | hasher (e : PasslibError)
deriving Repr, DecidableEq

/-- `CurrentUser` (`src/core/auth.py`). -/
structure CurrentUser where
  id : String
  email : Option String
deriving Repr, DecidableEq

/-- `TokenPair` (`src/domain/users/schemas.py`), with the two tokens kept
symbolic. -/
structure TokenPair where
  access_token : Token
  refresh_token : Token
  token_type : String
  expires_in : Int
deriving Repr, DecidableEq

/-- `UserRead` (`src/domain/users/schemas.py`). -/
structure UserRead where
  id : String
  email : String
  username : Option String
  is_active : Bool
  created_at : Int
  updated_at : Int
deriving Repr, DecidableEq

/-- `RegisterRequest` (`src/domain/users/schemas.py`). -/
structure RegisterRequest where
  email : String
  password : String
  username : Option String
deriving Repr, DecidableEq

/-- `LoginRequest` (`src/domain/users/schemas.py`). -/
structure LoginRequest where
  email : String
  password : String
deriving Repr, DecidableEq

/-- `get_current_user` (`src/core/auth.py`): decode the Bearer token as an
access token (any `JWTError` → 401), require the `type` claim to equal
`"access"` (else 401), require a truthy `sub` claim (else 401), then look the
user up by id and require it to exist and be active (else 401). -/
def get_current_user (s : Settings) (db : List User) (now : Int) (token : Token) :
    Except AppError CurrentUser :=
  match decode_access_token s now token with
  | .error _ => .error (.http 401 "Invalid or expired access token")
  | .ok payload =>
    if payload.type ≠ some "access" then
      .error (.http 401 "Invalid token type")
    else if falsyStr payload.sub then
      .error (.http 401 "Invalid token payload")
    else
      match scalar_one_or_none (selectById db (payload.sub.getD "")) with
      | .error e => .error (.orm e)
      | .ok none => .error (.http 401 "User not found or inactive")
      | .ok (some user) =>
        if ¬ user.is_active then .error (.http 401 "User not found or inactive")
        else .ok { id := user.id, email := some user.email }

/-- The token pair built on the success paths of `login` and `refresh`
(`src/api/auth.py`): fresh access and refresh tokens for the user, with
`expires_in = int(timedelta(minutes=access_token_expire_minutes)
.total_seconds())`, which equals `access_token_expire_minutes * 60` exactly. -/
def issueTokenPair (s : Settings) (now : Int) (user : User) : TokenPair :=
  { access_token :=
      create_access_token s now user.id user.email s.access_token_expire_minutes
    refresh_token :=
      create_refresh_token s now user.id user.email s.refresh_token_expire_minutes
    token_type := "bearer"
    expires_in := s.access_token_expire_minutes * 60 }

/-- `login` (`src/api/auth.py`): normalize the email, look the user up by it;
if absent or inactive → 401 "Invalid email or password"; if password
verification returns false → the same 401; otherwise issue a token pair. -/
def login (s : Settings) (db : List User) (req : LoginRequest) (now : Int) :
    Except AppError TokenPair :=
  match scalar_one_or_none (selectByEmail db (normalize_email req.email)) with
  | .error e => .error (.orm e)
  | .ok none => .error (.http 401 "Invalid email or password")
  | .ok (some user) =>
    if ¬ user.is_active then
      .error (.http 401 "Invalid email or password")
    else
      match verify_password req.password user.hashed_password with
      | .error e => .error (.hasher e)
      | .ok false => .error (.http 401 "Invalid email or password")
      | .ok true => .ok (issueTokenPair s now user)

/-- `payload.username.strip() if payload.username else None`
(`src/api/auth.py`): `None` and the empty string are falsy and give `None`;
any other string is stripped (possibly down to the empty string, which is then
kept). -/
def pyUsername : Option String → Option String
  | none => none
  | some u => if u = "" then none else some ⟨pyStrip u.data⟩

/-- The public projection `UserRead(...)` built from a stored user
(`src/api/auth.py`, register and me endpoints). -/
def toUserRead (u : User) : UserRead :=
  { id := u.id
    email := u.email
    username := u.username
    is_active := u.is_active
    created_at := u.created_at
    updated_at := u.updated_at }

/-- The `User(...)` row `register` persists: generated UUID `newId`,
normalized email, optional stripped username, bcrypt hash of the password
(with passlib's fresh `salt` explicit), `is_active = True`, and the
database-assigned timestamps standing at `now`. -/
def registeredUser (req : RegisterRequest) (newId : String) (salt : Nat)
    (now : Int) : User :=
  { id := newId
    email := normalize_email req.email
    username := pyUsername req.username
    hashed_password := hash_password req.password salt
    is_active := true
    created_at := now
    updated_at := now }

/-- `register` (`src/api/auth.py`): normalize the email, reject with 409 if a
user with it exists, otherwise persist a new active user with the hashed
password and return the stored users plus the public projection. -/
def register (db : List User) (req : RegisterRequest)
    (newId : String) (salt : Nat) (now : Int) :
    Except AppError (List User × UserRead) :=
  match scalar_one_or_none (selectByEmail db (normalize_email req.email)) with
  | .error e => .error (.orm e)
  | .ok (some _) => .error (.http 409 "Email is already registered")
  | .ok none =>
    .ok (db ++ [registeredUser req newId salt now],
      toUserRead (registeredUser req newId salt now))

/-- `refresh` (`src/api/auth.py`): decode as a refresh token (any `JWTError`
→ 401), require `type = "refresh"` (else 401), require truthy `sub` AND
truthy `email` claims (`if not user_id or not email` — else 401), look the
user up by id and require it active (else 401), then issue a fresh pair. -/
def refresh (s : Settings) (db : List User) (refresh_token : Token) (now : Int) :
    Except AppError TokenPair :=
  match decode_refresh_token s now refresh_token with
  | .error _ => .error (.http 401 "Invalid or expired refresh token")
  | .ok payload =>
    if payload.type ≠ some "refresh" then
      .error (.http 401 "Invalid token type")
    else if falsyStr payload.sub ∨ falsyStr payload.email then
      .error (.http 401 "Invalid token payload")
    else
      match scalar_one_or_none (selectById db (payload.sub.getD "")) with
      | .error e => .error (.orm e)
      | .ok none => .error (.http 401 "User not found or inactive")
      | .ok (some user) =>
        if ¬ user.is_active then .error (.http 401 "User not found or inactive")
        else .ok (issueTokenPair s now user)

/-- `me` (`src/api/auth.py`): resolve the current user from the Bearer token,
re-fetch by id (this second lookup checks existence only, not `is_active`),
and return the public projection. -/
def me_endpoint (s : Settings) (db : List User) (token : Token) (now : Int) :
    Except AppError UserRead :=
  match get_current_user s db now token with
  | .error e => .error e
  | .ok current_user =>
    match scalar_one_or_none (selectById db current_user.id) with
    | .error e => .error (.orm e)
    | .ok none => .error (.http 401 "User not found")
    | .ok (some user) =>
      .ok { id := user.id
            email := user.email
            username := user.username
            is_active := user.is_active
            created_at := user.created_at
            updated_at := user.updated_at }

/-- `health_check` (`src/api/main.py`): runs `SELECT 1`, catches every
exception, and always returns `{"status": "ok", "db": ...}` with `db`
reporting the connectivity outcome. -/
structure HealthResponse where
  status : String
  db : String
deriving Repr, DecidableEq

inductive DbProbe where
  | ok
  | failure (message : String)
deriving Repr, DecidableEq

def health_check (probe : DbProbe) : HealthResponse :=
  { status := "ok"
    db := match probe with
          | .ok => "ok"
          | .failure _ => "error" }

/-- The persistent state shared by the endpoints: the users table. -/
structure AppState where
  users : List User
deriving Repr, DecidableEq

/-- One incoming request to an auth endpoint, with the nondeterministic
inputs of its handler (generated UUID, passlib salt, clock) made explicit. -/
inductive Request where
  | registerReq (req : RegisterRequest) (newId : String) (salt : Nat) (now : Int)
  | loginReq (req : LoginRequest) (now : Int)
  | refreshReq (tok : Token) (now : Int)
  | meReq (tok : Token) (now : Int)
deriving Repr, DecidableEq

/-- A successful response body: a public user projection or a token pair. -/
inductive ResponseBody where
  | user (u : UserRead)
  | tokens (tp : TokenPair)
deriving Repr, DecidableEq

/-- Serve one request: only `register`'s success path writes to the users
table (`db.add` + `commit`); a raised `HTTPException` rolls back nothing
because nothing was written, and `login`/`refresh`/`me` never write. -/
def step (s : Settings) (st : AppState) (r : Request) :
    AppState × Except AppError ResponseBody :=
  match r with
  | .registerReq req newId salt now =>
    match register st.users req newId salt now with
    | .ok (db2, ur) => (⟨db2⟩, .ok (.user ur))
    | .error e => (st, .error e)
  | .loginReq req now => (st, (login s st.users req now).map .tokens)
  | .refreshReq tok now => (st, (refresh s st.users tok now).map .tokens)
  | .meReq tok now => (st, (me_endpoint s st.users tok now).map .user)

/-- Serve a sequence of requests, threading the state. -/
def run (s : Settings) (st : AppState) : List Request → AppState
  | [] => st
  | r :: rs => run s (step s st r).1 rs

/-- The users-table invariant behind case-insensitive email uniqueness: every
stored email is already normalized, and stored emails are pairwise distinct. -/
def EmailsOk (db : List User) : Prop :=
  (∀ u ∈ db, normalize_email u.email = u.email) ∧
    db.Pairwise (fun u v => u.email ≠ v.email)

/-- The `exp` claim a token carries (0 for a malformed token, which never
decodes anyway). -/
def tokenExp : Token → Int
  | .signed p _ _ => p.exp
  | .malformed _ => 0

/-- Spec-side rejection condition for `POST /auth/refresh`, written from the
spec's refresh-flow steps (amended with the handler's email-presence check):
the token fails to decode under the refresh key, or the `type` claim is not
`"refresh"`, or the `sub` claim is absent or empty, or the `email` claim is
absent or empty, or no active user carries the subject id. -/
def refreshRejectSpec (s : Settings) (db : List User) (tok : Token) (now : Int) :
    Bool :=
  match decode_refresh_token s now tok with
  | .error _ => true
  | .ok p =>
    p.type != some "refresh" || falsyStr p.sub || falsyStr p.email ||
      db.all (fun u => !(u.id == p.sub.getD "") || !u.is_active)

/-- A concrete stored user for witnesses: active, normalized email, a
well-formed bcrypt hash of "password1". -/
def sampleUser : User :=
  { id := "user-1"
    email := "a@x.com"
    username := none
    hashed_password := Hash.bcrypt "password1" 0
    is_active := true
    created_at := 0
    updated_at := 0 }

/-- Settings in which the access and refresh signing keys coincide, so that a
token of either kind signature-verifies under the key checked for the other
kind. -/
def sharedKeySettings : Settings :=
  { database_url := "postgresql://localhost/recipes"
    jwt_secret_key := "shared-key"
    jwt_refresh_secret_key := "shared-key" }

/-- A refresh-token payload that carries a valid subject but no `email`
claim. -/
def noEmailPayload : Payload :=
  { sub := some "user-1"
    email := none
    type := some "refresh"
    exp := 1000
    iat := 0 }

/-- A well-formed token: `noEmailPayload` signed with `sampleSettings`'
refresh key and algorithm. -/
def noEmailRefreshToken : Token :=
  Token.signed noEmailPayload "refresh-key" "HS256"

/-- A stored active user whose id is the empty string (ids are arbitrary
strings at the persistence layer). -/
def emptyIdUser : User :=
  { id := ""
    email := "b@x.com"
    username := none
    hashed_password := Hash.bcrypt "password2" 1
    is_active := true
    created_at := 0
    updated_at := 0 }

/-- A refresh-token payload whose `sub` claim is present but empty. -/
def emptySubPayload : Payload :=
  { sub := some ""
    email := some "b@x.com"
    type := some "refresh"
    exp := 1000
    iat := 0 }

/-- `emptySubPayload` signed with `sampleSettings`' refresh key. -/
def emptySubRefreshToken : Token :=
  Token.signed emptySubPayload "refresh-key" "HS256"

lemma char_toNat_ofNat (n : Nat) (h : n < 55296) : (Char.ofNat n).toNat = n := by
  have hv : n.isValidChar := Or.inl h
  rw [Char.ofNat, dif_pos hv]
  simp [Char.ofNatAux, Char.toNat, UInt32.ofNat, UInt32.toNat]

lemma isPySpace_pyLowerChar (c : Char) : isPySpace (pyLowerChar c) = isPySpace c := by
  by_cases h : 65 ≤ c.toNat ∧ c.toNat ≤ 90
  · have h1 : pyLowerChar c = Char.ofNat (c.toNat + 32) := by
      simp [pyLowerChar, h]
    have ht : (Char.ofNat (c.toNat + 32)).toNat = c.toNat + 32 :=
      char_toNat_ofNat _ (by omega)
    rw [h1]
    simp only [isPySpace, ht, decide_eq_decide]
    omega
  · rw [pyLowerChar, if_neg h]

lemma pyLowerChar_idem (c : Char) : pyLowerChar (pyLowerChar c) = pyLowerChar c := by
  by_cases h : 65 ≤ c.toNat ∧ c.toNat ≤ 90
  · have h1 : pyLowerChar c = Char.ofNat (c.toNat + 32) := by
      simp [pyLowerChar, h]
    have ht : (Char.ofNat (c.toNat + 32)).toNat = c.toNat + 32 :=
      char_toNat_ofNat _ (by omega)
    rw [h1, pyLowerChar, if_neg (by rw [ht]; omega)]
  · have h1 : pyLowerChar c = c := by rw [pyLowerChar, if_neg h]
    rw [h1, h1]

lemma dropWhile_isPySpace_map (l : List Char) :
    (l.map pyLowerChar).dropWhile isPySpace =
      (l.dropWhile isPySpace).map pyLowerChar := by
  have hp : isPySpace ∘ pyLowerChar = isPySpace := funext isPySpace_pyLowerChar
  rw [List.dropWhile_map, hp]

lemma rdropWhile_isPySpace_map (l : List Char) :
    (l.map pyLowerChar).rdropWhile isPySpace =
      (l.rdropWhile isPySpace).map pyLowerChar := by
  simp only [List.rdropWhile]
  rw [← List.map_reverse, dropWhile_isPySpace_map, List.map_reverse]

lemma pyStrip_map (l : List Char) :
    pyStrip (l.map pyLowerChar) = (pyStrip l).map pyLowerChar := by
  simp only [pyStrip, dropWhile_isPySpace_map, rdropWhile_isPySpace_map]

lemma pyStrip_idem (l : List Char) : pyStrip (pyStrip l) = pyStrip l := by
  unfold pyStrip
  have h1 : ((l.dropWhile isPySpace).rdropWhile isPySpace).dropWhile isPySpace =
      (l.dropWhile isPySpace).rdropWhile isPySpace := by
    rw [List.dropWhile_eq_self_iff]
    intro hl
    have hpre := List.rdropWhile_prefix isPySpace (l.dropWhile isPySpace)
    have hlen : 0 < (l.dropWhile isPySpace).length :=
      lt_of_lt_of_le hl hpre.length_le
    have hget : ((l.dropWhile isPySpace).rdropWhile isPySpace).get ⟨0, hl⟩ =
        (l.dropWhile isPySpace).get ⟨0, hlen⟩ := by
      simpa using List.IsPrefix.getElem hpre hl
    rw [hget]
    exact List.dropWhile_get_zero_not isPySpace l hlen
  rw [h1, List.rdropWhile_idempotent]

lemma map_pyLowerChar_idem (l : List Char) :
    (l.map pyLowerChar).map pyLowerChar = l.map pyLowerChar := by
  rw [List.map_map]
  have h : pyLowerChar ∘ pyLowerChar = pyLowerChar := funext pyLowerChar_idem
  rw [h]

lemma normalize_email_idem (e : String) :
    normalize_email (normalize_email e) = normalize_email e := by
  simp only [normalize_email]
  congr 1
  show ((pyStrip ((pyStrip e.data).map pyLowerChar)).map pyLowerChar) =
    (pyStrip e.data).map pyLowerChar
  rw [pyStrip_map, pyStrip_idem, map_pyLowerChar_idem]

/-- C5 counterexample: on a hash string that is not a well-formed bcrypt hash,
`verify_password` does not return false — it propagates passlib's
`UnknownHashError` (the code has no try/except around `pwd_context.verify`). -/
theorem verify_password_malformed_raises :
    verify_password "password1" (Hash.malformed "not-a-hash") ≠ .ok false ∧
    verify_password "password1" (Hash.malformed "not-a-hash") =
      .error PasslibError.unknownHash := by
  decide

/-- C5 amended: `verify_password` raises (propagates `UnknownHashError`) on a
malformed hash; on any well-formed bcrypt hash it never raises, and in
particular returns false on a normal mismatch. -/
theorem verify_password_error_behaviour (plain : String) (h : Hash) :
    ((∃ raw, h = Hash.malformed raw) →
      verify_password plain h = .error PasslibError.unknownHash) ∧
    (∀ pw salt, h = Hash.bcrypt pw salt →
      (∃ b, verify_password plain h = .ok b) ∧
      (plain ≠ pw → verify_password plain h = .ok false)) := by
  constructor
  · rintro ⟨raw, rfl⟩
    rfl
  · rintro pw salt rfl
    refine ⟨⟨plain = pw, rfl⟩, fun hne => ?_⟩
    simp [verify_password, pwd_context_verify, hne]

/-- Witness for C5's amended theorem at a concrete hash. -/
theorem verify_password_error_behaviour_witness :
    verify_password "pw" (Hash.bcrypt "other" 7) = .ok false :=
  ((verify_password_error_behaviour "pw" (Hash.bcrypt "other" 7)).2
    "other" 7 rfl).2 (by decide)

/-- C6. Verifying a password against its own hash succeeds, and verifying a
different password against that hash returns false, for every salt (the
embedded bcrypt model is collision-free). -/
theorem verify_password_of_hash_password (p1 p2 : String) (salt : Nat)
    (hne : p1 ≠ p2) :
    verify_password p1 (hash_password p1 salt) = .ok true ∧
    verify_password p1 (hash_password p2 salt) = .ok false := by
  constructor
  · simp [verify_password, pwd_context_verify, hash_password]
  · simp [verify_password, pwd_context_verify, hash_password, hne]

/-- Witness for C6 at concrete passwords and salt. -/
theorem verify_password_of_hash_password_witness :
    verify_password "hunter22" (hash_password "hunter22" 3) = .ok true ∧
    verify_password "hunter22" (hash_password "hunter23" 3) = .ok false :=
  verify_password_of_hash_password "hunter22" "hunter23" 3 (by decide)

/-- C1. For each kind in {access, refresh}: decoding with the matching decoder
and settings succeeds before `expires_at` and returns the original subject and
email, and fails (as expired) strictly after `expires_at`. -/
theorem token_roundtrip_before_expiry_and_failure_after
    (s : Settings) (subject email : String) (m now t1 t2 : Int)
    (hm : 0 < m) (h1 : t1 < now + m * 60) (h2 : now + m * 60 < t2) :
    (∃ p, decode_access_token s t1 (create_access_token s now subject email m) = .ok p ∧
      p.sub = some subject ∧ p.email = some email) ∧
    decode_access_token s t2 (create_access_token s now subject email m) =
      .error JWTError.expiredSignature ∧
    (∃ p, decode_refresh_token s t1 (create_refresh_token s now subject email m) = .ok p ∧
      p.sub = some subject ∧ p.email = some email) ∧
    decode_refresh_token s t2 (create_refresh_token s now subject email m) =
      .error JWTError.expiredSignature := by
  refine ⟨⟨⟨some subject, some email, some "access", now + m * 60, now⟩, ?_, rfl, rfl⟩,
    ?_, ⟨⟨some subject, some email, some "refresh", now + m * 60, now⟩, ?_, rfl, rfl⟩, ?_⟩ <;>
    simp [decode_access_token, decode_refresh_token, create_access_token,
      create_refresh_token, jwtDecode] <;> omega

/-- Witness for C1 at concrete inputs: a 30-minute token issued at time 0
decodes at time 100 and is rejected at time 2000. -/
theorem token_roundtrip_witness :
    (∃ p, decode_access_token sampleSettings 100
        (create_access_token sampleSettings 0 "user-1" "a@x.com" 30) = .ok p ∧
      p.sub = some "user-1" ∧ p.email = some "a@x.com") ∧
    decode_access_token sampleSettings 2000
        (create_access_token sampleSettings 0 "user-1" "a@x.com" 30) =
      .error JWTError.expiredSignature ∧
    (∃ p, decode_refresh_token sampleSettings 100
        (create_refresh_token sampleSettings 0 "user-1" "a@x.com" 30) = .ok p ∧
      p.sub = some "user-1" ∧ p.email = some "a@x.com") ∧
    decode_refresh_token sampleSettings 2000
        (create_refresh_token sampleSettings 0 "user-1" "a@x.com" 30) =
      .error JWTError.expiredSignature :=
  token_roundtrip_before_expiry_and_failure_after sampleSettings "user-1" "a@x.com"
    30 0 100 2000 (by decide) (by decide) (by decide)

lemma login_http_error_generic (s : Settings) (db : List User)
    (req : LoginRequest) (now : Int) (c : Nat) (d : String)
    (h : login s db req now = .error (.http c d)) :
    c = 401 ∧ d = "Invalid email or password" := by
  unfold login at h
  split at h
  · simp at h
  · simp at h
    exact ⟨h.1.symm, h.2.symm⟩
  · split at h
    · simp at h
      exact ⟨h.1.symm, h.2.symm⟩
    · split at h
      · simp at h
      · simp at h
        exact ⟨h.1.symm, h.2.symm⟩
      · simp at h

lemma login_ok_shape (s : Settings) (db : List User) (req : LoginRequest)
    (now : Int) (tp : TokenPair) (h : login s db req now = .ok tp) :
    ∃ user, tp = issueTokenPair s now user := by
  unfold login at h
  split at h
  · simp at h
  · simp at h
  · split at h
    · simp at h
    · split at h
      · simp at h
      · simp at h
      · exact ⟨_, (Except.ok.inj h).symm⟩

/-- C3. Any two failing login attempts — unknown email, inactive user, or
wrong password — produce identical HTTP responses: status 401 with the same
generic detail, revealing nothing about which check failed. -/
theorem login_failures_indistinguishable (s : Settings) (db : List User)
    (r1 r2 : LoginRequest) (t1 t2 : Int) (c1 c2 : Nat) (d1 d2 : String)
    (h1 : login s db r1 t1 = .error (.http c1 d1))
    (h2 : login s db r2 t2 = .error (.http c2 d2)) :
    c1 = 401 ∧ c2 = 401 ∧ d1 = d2 := by
  obtain ⟨hc1, hd1⟩ := login_http_error_generic s db r1 t1 c1 d1 h1
  obtain ⟨hc2, hd2⟩ := login_http_error_generic s db r2 t2 c2 d2 h2
  exact ⟨hc1, hc2, hd1.trans hd2.symm⟩

/-- Witness for C3: an unknown email and a wrong password against a stored
active user fail with the same 401 response. -/
theorem login_failures_indistinguishable_witness :
    login sampleSettings [sampleUser]
        { email := "nobody@x.com", password := "password1" } 0 =
      .error (.http 401 "Invalid email or password") ∧
    login sampleSettings [sampleUser]
        { email := " A@X.com ", password := "wrong-password" } 5 =
      .error (.http 401 "Invalid email or password") ∧
    (401 = 401 ∧ 401 = 401 ∧
      ("Invalid email or password" : String) = "Invalid email or password") :=
  ⟨by decide, by decide,
    login_failures_indistinguishable sampleSettings [sampleUser]
      { email := "nobody@x.com", password := "password1" }
      { email := " A@X.com ", password := "wrong-password" } 0 5 401 401
      "Invalid email or password" "Invalid email or password"
      (by decide) (by decide)⟩

/-- C9. Every successful login returns `token_type = "bearer"` and
`expires_in` equal to the configured access TTL in minutes times 60,
independent of the refresh TTL. -/
theorem login_success_bearer_and_expires_in (s : Settings) (db : List User)
    (req : LoginRequest) (now : Int) (tp : TokenPair)
    (h : login s db req now = .ok tp) :
    tp.token_type = "bearer" ∧
    tp.expires_in = s.access_token_expire_minutes * 60 := by
  obtain ⟨user, rfl⟩ := login_ok_shape s db req now tp h
  exact ⟨rfl, rfl⟩

/-- Witness for C9: at the default TTL of 30 minutes a successful login
reports `expires_in = 1800` seconds and `token_type = "bearer"`. -/
theorem login_success_bearer_and_expires_in_witness :
    login sampleSettings [sampleUser]
        { email := "a@x.com", password := "password1" } 0 =
      .ok (issueTokenPair sampleSettings 0 sampleUser) ∧
    sampleSettings.access_token_expire_minutes = 30 ∧
    (issueTokenPair sampleSettings 0 sampleUser).token_type = "bearer" ∧
    (issueTokenPair sampleSettings 0 sampleUser).expires_in = 1800 := by
  refine ⟨by decide, by decide, ?_⟩
  have h := login_success_bearer_and_expires_in sampleSettings [sampleUser]
    { email := "a@x.com", password := "password1" } 0
    (issueTokenPair sampleSettings 0 sampleUser) (by decide)
  exact ⟨h.1, by rw [h.2]; decide⟩

/-- C10. `GET /health` is total and its top-level status is always `"ok"`;
a failing database probe is reported only through the `db` field. -/
theorem health_check_status_always_ok (probe : DbProbe) :
    (health_check probe).status = "ok" ∧
    ((health_check probe).db = "error" ↔ ∃ m, probe = DbProbe.failure m) := by
  cases probe with
  | ok =>
    refine ⟨rfl, ?_, ?_⟩
    · intro h
      exact absurd h (by decide)
    · rintro ⟨m, hm⟩
      exact absurd hm (by simp)
  | failure m => exact ⟨rfl, by simp [health_check]⟩

/-- C2. An unexpired refresh token presented to `get_current_user` is rejected
with 401, and an unexpired access token presented to `POST /auth/refresh` is
rejected with 401 — for every database and settings; and when the two signing
keys are equal (so the signature verifies under the key checked) the rejection
is precisely the `type`-mismatch 401. -/
theorem cross_type_tokens_rejected (s : Settings) (db : List User)
    (subject email : String) (m now t : Int) (h : t ≤ now + m * 60) :
    (∃ d, get_current_user s db t (create_refresh_token s now subject email m) =
      .error (.http 401 d)) ∧
    (∃ d, refresh s db (create_access_token s now subject email m) t =
      .error (.http 401 d)) ∧
    (s.jwt_secret_key = s.jwt_refresh_secret_key →
      get_current_user s db t (create_refresh_token s now subject email m) =
        .error (.http 401 "Invalid token type") ∧
      refresh s db (create_access_token s now subject email m) t =
        .error (.http 401 "Invalid token type")) := by
  have hexp : ¬ (now + m * 60 < t) := not_lt.mpr h
  by_cases hk : s.jwt_refresh_secret_key = s.jwt_secret_key
  · have h1 : get_current_user s db t (create_refresh_token s now subject email m) =
        .error (.http 401 "Invalid token type") := by
      simp [get_current_user, decode_access_token, create_refresh_token,
        jwtDecode, hk, hexp]
    have h2 : refresh s db (create_access_token s now subject email m) t =
        .error (.http 401 "Invalid token type") := by
      simp [refresh, decode_refresh_token, create_access_token,
        jwtDecode, hk.symm, hexp]
    exact ⟨⟨_, h1⟩, ⟨_, h2⟩, fun _ => ⟨h1, h2⟩⟩
  · have h1 : get_current_user s db t (create_refresh_token s now subject email m) =
        .error (.http 401 "Invalid or expired access token") := by
      simp [get_current_user, decode_access_token, create_refresh_token,
        jwtDecode, hk]
    have hk2 : ¬ (s.jwt_secret_key = s.jwt_refresh_secret_key) :=
      fun hh => hk hh.symm
    have h2 : refresh s db (create_access_token s now subject email m) t =
        .error (.http 401 "Invalid or expired refresh token") := by
      simp [refresh, decode_refresh_token, create_access_token, jwtDecode, hk2]
    exact ⟨⟨_, h1⟩, ⟨_, h2⟩, fun hcontra => absurd hcontra.symm hk⟩

/-- Witness for C2 with shared signing keys: both cross-kind presentations hit
the `type`-mismatch 401. -/
theorem cross_type_tokens_rejected_witness :
    (100 : Int) ≤ 0 + 30 * 60 ∧
    get_current_user sharedKeySettings [sampleUser] 100
        (create_refresh_token sharedKeySettings 0 "user-1" "a@x.com" 30) =
      .error (.http 401 "Invalid token type") ∧
    refresh sharedKeySettings [sampleUser]
        (create_access_token sharedKeySettings 0 "user-1" "a@x.com" 30) 100 =
      .error (.http 401 "Invalid token type") :=
  ⟨by decide,
    ((cross_type_tokens_rejected sharedKeySettings [sampleUser] "user-1" "a@x.com"
      30 0 100 (by decide)).2.2 rfl).1,
    ((cross_type_tokens_rejected sharedKeySettings [sampleUser] "user-1" "a@x.com"
      30 0 100 (by decide)).2.2 rfl).2⟩

lemma scalar_one_or_none_eq_none {rows : List User}
    (h : scalar_one_or_none rows = .ok none) : rows = [] := by
  cases rows with
  | nil => rfl
  | cons a t => cases t <;> simp [scalar_one_or_none] at h

lemma register_ok_inv (db db2 : List User) (req : RegisterRequest)
    (newId : String) (salt : Nat) (now : Int) (ur : UserRead)
    (h : register db req newId salt now = .ok (db2, ur)) :
    ∃ user, db2 = db ++ [user] ∧ user.email = normalize_email req.email ∧
      selectByEmail db (normalize_email req.email) = [] := by
  unfold register at h
  split at h
  · simp at h
  · simp at h
  case _ heq =>
    refine ⟨registeredUser req newId salt now, ?_, rfl,
      scalar_one_or_none_eq_none heq⟩
    have h2 := Except.ok.inj h
    exact (congrArg Prod.fst h2).symm

lemma register_preserves_EmailsOk (db db2 : List User) (req : RegisterRequest)
    (newId : String) (salt : Nat) (now : Int) (ur : UserRead)
    (hok : EmailsOk db) (h : register db req newId salt now = .ok (db2, ur)) :
    EmailsOk db2 := by
  obtain ⟨user, rfl, hemail, hempty⟩ :=
    register_ok_inv db db2 req newId salt now ur h
  obtain ⟨hnorm, hpw⟩ := hok
  have hfresh : ∀ u ∈ db, ¬ (u.email = user.email) := by
    intro u hu
    rw [hemail]
    have := List.filter_eq_nil_iff.mp hempty u hu
    simpa [selectByEmail] using this
  constructor
  · intro u hu
    rcases List.mem_append.mp hu with hin | hin
    · exact hnorm u hin
    · rcases List.mem_singleton.mp hin with rfl
      rw [hemail]
      exact normalize_email_idem _
  · rw [List.pairwise_append]
    refine ⟨hpw, List.pairwise_singleton _ _, ?_⟩
    intro a ha b hb
    rcases List.mem_singleton.mp hb with rfl
    exact hfresh a ha

lemma step_preserves_EmailsOk (s : Settings) (st : AppState) (r : Request)
    (hok : EmailsOk st.users) : EmailsOk ((step s st r).1).users := by
  cases r with
  | registerReq req newId salt now =>
    cases hreg : register st.users req newId salt now with
    | ok pair =>
      obtain ⟨db2, ur⟩ := pair
      simp only [step, hreg]
      exact register_preserves_EmailsOk st.users db2 req newId salt now ur hok hreg
    | error e =>
      simp only [step, hreg]
      exact hok
  | loginReq req now => exact hok
  | refreshReq tok now => exact hok
  | meReq tok now => exact hok

lemma run_preserves_EmailsOk (s : Settings) (ops : List Request) :
    ∀ st : AppState, EmailsOk st.users → EmailsOk (run s st ops).users := by
  induction ops with
  | nil => exact fun st h => h
  | cons r rs ih => exact fun st h => ih _ (step_preserves_EmailsOk s st r h)

lemma EmailsOk_pairwise_normalized (db : List User) (h : EmailsOk db) :
    db.Pairwise (fun u v => normalize_email u.email ≠ normalize_email v.email) := by
  obtain ⟨hnorm, hpw⟩ := h
  refine List.Pairwise.imp_of_mem ?_ hpw
  intro a b ha hb hne
  rw [hnorm a ha, hnorm b hb]
  exact hne

/-- C4. If a registration succeeds, a second registration whose email
normalizes to the same string (differing only in case or surrounding
whitespace) returns 409 and leaves the users table unchanged; and from any
state satisfying the email invariant — the empty table in particular — no
sequence of requests ever produces two stored users whose emails agree up to
trim+lowercase normalization. -/
theorem register_email_unique_case_insensitive
    (db db1 : List User) (r1 r2 : RegisterRequest)
    (id1 id2 : String) (salt1 salt2 : Nat) (t1 t2 : Int) (ur1 : UserRead)
    (hnorm : normalize_email r1.email = normalize_email r2.email)
    (h1 : register db r1 id1 salt1 t1 = .ok (db1, ur1)) :
    register db1 r2 id2 salt2 t2 =
      .error (.http 409 "Email is already registered") ∧
    (∀ s, (step s ⟨db1⟩ (.registerReq r2 id2 salt2 t2)).1 = ⟨db1⟩) ∧
    (∀ (s : Settings) (st : AppState) (ops : List Request), EmailsOk st.users →
      ((run s st ops).users).Pairwise
        (fun u v => normalize_email u.email ≠ normalize_email v.email)) := by
  obtain ⟨user, rfl, hemail, hempty⟩ :=
    register_ok_inv db db1 r1 id1 salt1 t1 ur1 h1
  have hsel : selectByEmail (db ++ [user]) (normalize_email r2.email) = [user] := by
    rw [selectByEmail, List.filter_append, ← hnorm]
    rw [show (List.filter (fun u => u.email = normalize_email r1.email) db) =
      selectByEmail db (normalize_email r1.email) from rfl, hempty]
    simp [hemail]
  have h409 : register (db ++ [user]) r2 id2 salt2 t2 =
      .error (.http 409 "Email is already registered") := by
    unfold register
    rw [hsel]
    rfl
  refine ⟨h409, ?_, ?_⟩
  · intro s
    simp only [step, h409]
  · intro s st ops hok
    exact EmailsOk_pairwise_normalized _ (run_preserves_EmailsOk s ops st hok)

/-- Witness for C4: registering `a@x.com` and then `" A@X.Com "` — same email
up to case and whitespace — makes the second attempt fail with 409. -/
theorem register_email_unique_witness :
    normalize_email "a@x.com" = normalize_email " A@X.Com " ∧
    register [] { email := "a@x.com", password := "password1", username := none }
        "id1" 0 0 =
      .ok ([{ id := "id1", email := "a@x.com", username := none,
              hashed_password := Hash.bcrypt "password1" 0, is_active := true,
              created_at := 0, updated_at := 0 }],
           { id := "id1", email := "a@x.com", username := none,
             is_active := true, created_at := 0, updated_at := 0 }) ∧
    register [{ id := "id1", email := "a@x.com", username := none,
                hashed_password := Hash.bcrypt "password1" 0, is_active := true,
                created_at := 0, updated_at := 0 }]
        { email := " A@X.Com ", password := "password2", username := none }
        "id2" 1 5 =
      .error (.http 409 "Email is already registered") :=
  ⟨by decide, by decide,
    (register_email_unique_case_insensitive []
      [{ id := "id1", email := "a@x.com", username := none,
         hashed_password := Hash.bcrypt "password1" 0, is_active := true,
         created_at := 0, updated_at := 0 }]
      { email := "a@x.com", password := "password1", username := none }
      { email := " A@X.Com ", password := "password2", username := none }
      "id1" "id2" 0 1 0 5
      { id := "id1", email := "a@x.com", username := none,
        is_active := true, created_at := 0, updated_at := 0 }
      (by decide) (by decide)).1⟩

lemma jwtDecode_ok_inv (tok : Token) (key : String) (algs : List String)
    (t : Int) (p : Payload) (h : jwtDecode tok key algs t = .ok p) :
    ∃ a, tok = .signed p key a ∧ a ∈ algs ∧ ¬ (p.exp < t) := by
  cases tok with
  | malformed raw => simp [jwtDecode] at h
  | signed q k a =>
    simp only [jwtDecode] at h
    split at h
    · rename_i hc
      split at h
      · simp at h
      · rename_i hexp
        have hq : q = p := Except.ok.inj h
        subst hq
        exact ⟨a, by rw [hc.1], hc.2, hexp⟩
    · simp at h

lemma jwtDecode_ok_of (p : Payload) (key a : String) (algs : List String)
    (t : Int) (ha : a ∈ algs) (ht : ¬ (p.exp < t)) :
    jwtDecode (.signed p key a) key algs t = .ok p := by
  simp [jwtDecode, ha, ht]

lemma refresh_ok_inv (s : Settings) (db : List User) (tok : Token) (t1 : Int)
    (tp : TokenPair) (h : refresh s db tok t1 = .ok tp) :
    ∃ p user, decode_refresh_token s t1 tok = .ok p ∧
      p.type = some "refresh" ∧
      falsyStr p.sub = false ∧ falsyStr p.email = false ∧
      scalar_one_or_none (selectById db (p.sub.getD "")) = .ok (some user) ∧
      user.is_active = true ∧ tp = issueTokenPair s t1 user := by
  unfold refresh at h
  split at h
  · simp at h
  rename_i p heq
  split at h
  · simp at h
  rename_i htype
  split at h
  · simp at h
  rename_i hfalsy
  split at h
  · simp at h
  · simp at h
  rename_i user huser
  split at h
  · simp at h
  rename_i hactive
  refine ⟨p, user, heq, by simpa using htype, ?_, ?_, huser,
    by simpa using hactive, (Except.ok.inj h).symm⟩
  · simpa using fun hc => hfalsy (Or.inl hc)
  · simpa using fun hc => hfalsy (Or.inr hc)

/-- C8. A successful refresh call (1) leaves the persistent state unchanged,
(2) invalidates no access token — one that decodes at `t1` still decodes, to
the same claims, at any later `t2` before its `exp` — and (3) the presented
refresh token can be presented again at any time up to its own expiry. -/
theorem refresh_stateless_and_noninvalidating :
    (∀ (s : Settings) (st : AppState) (tok : Token) (now : Int),
      (step s st (.refreshReq tok now)).1 = st) ∧
    (∀ (s : Settings) (tok : Token) (t1 t2 : Int) (p : Payload),
      decode_access_token s t1 tok = .ok p → t1 ≤ t2 → t2 < p.exp →
      decode_access_token s t2 tok = .ok p) ∧
    (∀ (s : Settings) (db : List User) (tok : Token) (t1 t2 : Int)
      (tp : TokenPair),
      refresh s db tok t1 = .ok tp → t2 ≤ tokenExp tok →
      ∃ tp2, refresh s db tok t2 = .ok tp2) := by
  refine ⟨fun s st tok now => rfl, ?_, ?_⟩
  · intro s tok t1 t2 p h h12 h2exp
    obtain ⟨a, rfl, ha, hexp⟩ :=
      jwtDecode_ok_inv tok s.jwt_secret_key [s.algorithm] t1 p h
    exact jwtDecode_ok_of p s.jwt_secret_key a [s.algorithm] t2 ha (by omega)
  · intro s db tok t1 t2 tp h ht2
    obtain ⟨p, user, hdec, htype, hsub, hemail, huser, hact, rfl⟩ :=
      refresh_ok_inv s db tok t1 tp h
    obtain ⟨a, rfl, ha, hexp⟩ :=
      jwtDecode_ok_inv tok s.jwt_refresh_secret_key [s.algorithm] t1 p hdec
    simp only [tokenExp] at ht2
    have hdec2 : decode_refresh_token s t2
        (.signed p s.jwt_refresh_secret_key a) = .ok p :=
      jwtDecode_ok_of p s.jwt_refresh_secret_key a [s.algorithm] t2 ha (by omega)
    exact ⟨issueTokenPair s t2 user,
      by simp [refresh, hdec2, htype, hsub, hemail, huser, hact]⟩

/-- Witness for C8: after a successful refresh at time 100, the state is
untouched, a 30-minute access token from time 0 still decodes at time 200,
and the same refresh token is accepted again at time 500. -/
theorem refresh_stateless_and_noninvalidating_witness :
    (step sampleSettings ⟨[sampleUser]⟩ (.refreshReq
        (create_refresh_token sampleSettings 0 "user-1" "a@x.com" 10080)
        100)).1 = ⟨[sampleUser]⟩ ∧
    decode_access_token sampleSettings 200
        (create_access_token sampleSettings 0 "user-1" "a@x.com" 30) =
      .ok { sub := some "user-1", email := some "a@x.com",
            type := some "access", exp := 1800, iat := 0 } ∧
    (∃ tp2, refresh sampleSettings [sampleUser]
        (create_refresh_token sampleSettings 0 "user-1" "a@x.com" 10080) 500 =
      .ok tp2) :=
  ⟨refresh_stateless_and_noninvalidating.1 sampleSettings ⟨[sampleUser]⟩
      (create_refresh_token sampleSettings 0 "user-1" "a@x.com" 10080) 100,
    refresh_stateless_and_noninvalidating.2.1 sampleSettings
      (create_access_token sampleSettings 0 "user-1" "a@x.com" 30) 100 200
      { sub := some "user-1", email := some "a@x.com",
        type := some "access", exp := 1800, iat := 0 }
      (by decide) (by decide) (by decide),
    refresh_stateless_and_noninvalidating.2.2 sampleSettings [sampleUser]
      (create_refresh_token sampleSettings 0 "user-1" "a@x.com" 10080) 100 500
      (issueTokenPair sampleSettings 100 sampleUser) (by decide) (by decide)⟩

/-- C7 counterexample: a well-formed, unexpired refresh token whose `sub`
names a stored active user but whose `email` claim is absent satisfies none of
the claim's rejection conditions, yet `refresh` rejects it with 401
"Invalid token payload" (`if not user_id or not email`). -/
theorem refresh_rejects_missing_email_counterexample :
    decode_refresh_token sampleSettings 0 noEmailRefreshToken =
      .ok noEmailPayload ∧
    noEmailPayload.type = some "refresh" ∧
    falsyStr noEmailPayload.sub = false ∧
    scalar_one_or_none (selectById [sampleUser] "user-1") =
      .ok (some sampleUser) ∧
    sampleUser.is_active = true ∧
    refresh sampleSettings [sampleUser] noEmailRefreshToken 0 =
      .error (.http 401 "Invalid token payload") ∧
    decode_refresh_token sampleSettings 0 emptySubRefreshToken =
      .ok emptySubPayload ∧
    scalar_one_or_none (selectById [emptyIdUser] "") = .ok (some emptyIdUser) ∧
    emptyIdUser.is_active = true ∧
    refresh sampleSettings [emptyIdUser] emptySubRefreshToken 0 =
      .error (.http 401 "Invalid token payload") := by
  decide

lemma selectById_length_le_one (db : List User) (i : String)
    (hids : (db.map User.id).Nodup) : (selectById db i).length ≤ 1 := by
  induction db with
  | nil => simp [selectById]
  | cons u t ih =>
    simp only [List.map_cons, List.nodup_cons] at hids
    obtain ⟨hnotin, ht⟩ := hids
    by_cases hu : u.id = i
    · have ht0 : List.filter (fun v => v.id = i) t = [] := by
        rw [List.filter_eq_nil_iff]
        intro v hv hvi
        have hvid : v.id = i := by simpa using hvi
        exact hnotin (List.mem_map.mpr ⟨v, hv, by rw [hvid, hu]⟩)
      simp [selectById, List.filter_cons, hu, ht0]
    · have hstep : selectById (u :: t) i = selectById t i := by
        simp [selectById, List.filter_cons, hu]
      rw [hstep]
      exact ih ht

lemma scalar_one_or_none_of_short (rows : List User) (h : rows.length ≤ 1) :
    scalar_one_or_none rows = .ok rows.head? := by
  cases rows with
  | nil => rfl
  | cons a t =>
    cases t with
    | nil => rfl
    | cons b r => simp at h

/-- C7 amended: with unique user ids, `POST /auth/refresh` rejects with 401
exactly when the token fails to decode under the refresh key, the decoded
`type` is not `"refresh"`, the `sub` claim is absent or empty, the `email`
claim is absent or empty, or no active stored user carries the subject id;
in every other case it succeeds, issuing a fresh access+refresh pair for that
user. -/
theorem refresh_401_iff_reject_spec (s : Settings) (db : List User)
    (tok : Token) (now : Int) (hids : (db.map User.id).Nodup) :
    ((∃ d, refresh s db tok now = .error (.http 401 d)) ↔
      refreshRejectSpec s db tok now = true) ∧
    (refreshRejectSpec s db tok now = false →
      ∃ user, user ∈ db ∧ user.is_active = true ∧
        refresh s db tok now = .ok (issueTokenPair s now user)) := by
  cases hdec : decode_refresh_token s now tok with
  | error e =>
    have hr : refresh s db tok now =
        .error (.http 401 "Invalid or expired refresh token") := by
      simp [refresh, hdec]
    have hs : refreshRejectSpec s db tok now = true := by
      simp [refreshRejectSpec, hdec]
    rw [hr, hs]
    exact ⟨iff_of_true ⟨_, rfl⟩ rfl, fun hf => absurd hf (by simp)⟩
  | ok p =>
    by_cases htype : p.type = some "refresh"
    case neg =>
      have hr : refresh s db tok now = .error (.http 401 "Invalid token type") := by
        simp [refresh, hdec, htype]
      have hs : refreshRejectSpec s db tok now = true := by
        simp [refreshRejectSpec, hdec, htype]
      rw [hr, hs]
      exact ⟨iff_of_true ⟨_, rfl⟩ rfl, fun hf => absurd hf (by simp)⟩
    case pos =>
      cases hsub : falsyStr p.sub with
      | true =>
        have hr : refresh s db tok now =
            .error (.http 401 "Invalid token payload") := by
          simp [refresh, hdec, htype, hsub]
        have hs : refreshRejectSpec s db tok now = true := by
          simp [refreshRejectSpec, hdec, hsub]
        rw [hr, hs]
        exact ⟨iff_of_true ⟨_, rfl⟩ rfl, fun hf => absurd hf (by simp)⟩
      | false =>
        cases hemail : falsyStr p.email with
        | true =>
          have hr : refresh s db tok now =
              .error (.http 401 "Invalid token payload") := by
            simp [refresh, hdec, htype, hsub, hemail]
          have hs : refreshRejectSpec s db tok now = true := by
            simp [refreshRejectSpec, hdec, hemail]
          rw [hr, hs]
          exact ⟨iff_of_true ⟨_, rfl⟩ rfl, fun hf => absurd hf (by simp)⟩
        | false =>
          have hscalar := scalar_one_or_none_of_short _
            (selectById_length_le_one db (p.sub.getD "") hids)
          cases hhead : (selectById db (p.sub.getD "")).head? with
          | none =>
            have hnilsel : selectById db (p.sub.getD "") = [] :=
              List.head?_eq_none_iff.mp hhead
            have hr : refresh s db tok now =
                .error (.http 401 "User not found or inactive") := by
              simp [refresh, hdec, htype, hsub, hemail, hscalar, hhead]
            have hall : db.all
                (fun u => !(u.id == p.sub.getD "") || !u.is_active) = true := by
              rw [List.all_eq_true]
              intro u hu
              have hnid : ¬ (u.id = p.sub.getD "") := by
                intro hid
                have hmem : u ∈ selectById db (p.sub.getD "") :=
                  List.mem_filter.mpr ⟨hu, by simp [hid]⟩
                rw [hnilsel] at hmem
                simp at hmem
              simp [hnid]
            have hs : refreshRejectSpec s db tok now = true := by
              simp [refreshRejectSpec, hdec, htype, hsub, hemail, hall]
            rw [hr, hs]
            exact ⟨iff_of_true ⟨_, rfl⟩ rfl, fun hf => absurd hf (by simp)⟩
          | some u =>
            have humem : u ∈ db ∧ u.id = p.sub.getD "" := by
              have hmem : u ∈ selectById db (p.sub.getD "") :=
                List.mem_of_mem_head? (by rw [hhead]; exact rfl)
              have := List.mem_filter.mp hmem
              exact ⟨this.1, by simpa using this.2⟩
            cases hact : u.is_active with
            | false =>
              have hr : refresh s db tok now =
                  .error (.http 401 "User not found or inactive") := by
                simp [refresh, hdec, htype, hsub, hemail, hscalar, hhead, hact]
              have hall : db.all
                  (fun v => !(v.id == p.sub.getD "") || !v.is_active) = true := by
                rw [List.all_eq_true]
                intro v hv
                by_cases hvid : v.id = p.sub.getD ""
                · have hveq : v = u :=
                    List.inj_on_of_nodup_map hids hv humem.1
                      (by rw [hvid, humem.2])
                  rw [hveq]
                  simp [humem.2, hact]
                · simp [hvid]
              have hs : refreshRejectSpec s db tok now = true := by
                simp [refreshRejectSpec, hdec, htype, hsub, hemail, hall]
              rw [hr, hs]
              exact ⟨iff_of_true ⟨_, rfl⟩ rfl, fun hf => absurd hf (by simp)⟩
            | true =>
              have hr : refresh s db tok now =
                  .ok (issueTokenPair s now u) := by
                simp [refresh, hdec, htype, hsub, hemail, hscalar, hhead, hact]
              have hs : refreshRejectSpec s db tok now = false := by
                simp only [refreshRejectSpec, hdec]
                simp [htype, hsub, hemail]
                exact ⟨u, humem.1, humem.2, hact⟩
              rw [hr, hs]
              refine ⟨iff_of_false ?_ (by simp), fun _ => ⟨u, humem.1, hact, rfl⟩⟩
              rintro ⟨d, hd⟩
              simp at hd

/-- Witness for C7's amended theorem: a complete refresh token for a stored
active user is accepted, and the spec-side rejection condition evaluates to
false on the same input. -/
theorem refresh_401_iff_reject_spec_witness :
    ([sampleUser].map User.id).Nodup ∧
    refreshRejectSpec sampleSettings [sampleUser]
        (create_refresh_token sampleSettings 0 "user-1" "a@x.com" 10080) 100 =
      false ∧
    (∃ user, user ∈ [sampleUser] ∧ user.is_active = true ∧
      refresh sampleSettings [sampleUser]
          (create_refresh_token sampleSettings 0 "user-1" "a@x.com" 10080) 100 =
        .ok (issueTokenPair sampleSettings 100 user)) :=
  ⟨by decide, by decide,
    (refresh_401_iff_reject_spec sampleSettings [sampleUser]
        (create_refresh_token sampleSettings 0 "user-1" "a@x.com" 10080) 100
        (by decide)).2 (by decide)⟩

end RecipeHub
